import Mathlib

/-!
Shallow embedding of the codesprouts services layer:
`DomainsService` and `LessonsService` (src/unnamed/part_006), `AuthService`
(src/auth.ts) and the static registrar directory (src/registrars.ts).

Strings are modelled as Lean `String` / `List Char`; JS numbers used as page
indices are modelled as `Int` (all uses in the code are integral); progress
percentages are modelled as `ℚ`.  Backend interactions (Supabase, fetch) are
modelled as explicit outcome parameters.
-/

/-- A registrar directory entry (src/registrars.ts `KenicRegistrar`). -/
structure KenicRegistrar where
  id : String
  name : String
  phone : String
  email : String
deriving DecidableEq, Repr

/-- The static registrar directory `kenicRegistrars` (src/registrars.ts, 20 entries). -/
def kenicRegistrars : List KenicRegistrar := [
  { id := "truehost", name := "Truehost Cloud Limited", phone := "+25420 790 3111", email := "info@truehost.co.ke" },
  { id := "kwe", name := "Kenya Website Experts", phone := "0722 209 414", email := "info@kenyawebexperts.co.ke" },
  { id := "sasahost", name := "Sasahost", phone := "+254 20 2498888", email := "info@sasahost.co.ke" },
  { id := "webhost", name := "Web Host Kenya", phone := "0722 386 389", email := "info@webhostkenya.co.ke" },
  { id := "hostpinnacle", name := "Host Pinnacle", phone := "0700 000 000", email := "info@hostpinnacle.co.ke" },
  { id := "kenic", name := "Kenya Network Information Centre (KeNIC)", phone := "+254 20 387 4700", email := "info@kenic.or.ke" },
  { id := "domainkenya", name := "Domain Kenya", phone := "0722 000 000", email := "info@domainkenya.co.ke" },
  { id := "hostingreview", name := "Hosting Review Kenya", phone := "0700 123 456", email := "info@hostingreviewkenya.co.ke" },
  { id := "smartweb", name := "Smart Web Kenya", phone := "0722 500 500", email := "info@smartwebkenya.co.ke" },
  { id := "webcom", name := "Webcom Kenya", phone := "0722 700 700", email := "info@webcom.co.ke" },
  { id := "hostpoa", name := "Host POA", phone := "0722 800 800", email := "info@hostpoa.co.ke" },
  { id := "digitalocean", name := "DigitalOcean Kenya", phone := "0700 900 900", email := "support@digitalocean.co.ke" },
  { id := "cloudflare", name := "Cloudflare Kenya", phone := "0722 111 111", email := "support@cloudflare.co.ke" },
  { id := "hostgator", name := "HostGator Kenya", phone := "0700 222 222", email := "support@hostgator.co.ke" },
  { id := "namecheap", name := "Namecheap Kenya", phone := "0722 333 333", email := "support@namecheap.co.ke" },
  { id := "godaddy", name := "GoDaddy Kenya", phone := "0700 444 444", email := "support@godaddy.co.ke" },
  { id := "bluehost", name := "Bluehost Kenya", phone := "0722 555 555", email := "support@bluehost.co.ke" },
  { id := "hostinger", name := "Hostinger Kenya", phone := "0700 666 666", email := "support@hostinger.co.ke" },
  { id := "siteground", name := "SiteGround Kenya", phone := "0722 777 777", email := "support@siteground.co.ke" },
  { id := "dreamhost", name := "DreamHost Kenya", phone := "0700 888 888", email := "support@dreamhost.co.ke" }]

/-- Resolution of one slice index per ECMAScript `Array.prototype.slice`:
a negative index counts from the end (clamped at 0), a non-negative one is
clamped at the length. -/
def jsSliceIdx (len : Nat) (i : Int) : Nat :=
  if i < 0 then ((len : Int) + i).toNat else min i.toNat len

/-- ECMAScript `Array.prototype.slice(start, end)` on a list. -/
def jsSlice (xs : List α) (start stop : Int) : List α :=
  let k := jsSliceIdx xs.length start
  let fin := jsSliceIdx xs.length stop
  (xs.take fin).drop k

/-- Uniform result shape `ApiResponse<T> = {success, data?, error?}` (src types). -/
structure ApiResponse (α : Type) where
  success : Bool
  data : Option α := none
  error : Option String := none
deriving DecidableEq, Repr

namespace DomainsService

/-- Return shape of `getRegistrarsPaginated`. -/
structure RegistrarsPage where
  registrars : List KenicRegistrar
  hasMore : Bool
  total : Nat
deriving DecidableEq, Repr

/-- `DomainsService.getRegistrarsPaginated(page, limit)` (part_006 lines 63-77):
`startIndex = (page-1)*limit`, `endIndex = startIndex+limit`, slice of the
static list, `hasMore = endIndex < kenicRegistrars.length`. -/
def getRegistrarsPaginated (page limit : Int) : RegistrarsPage :=
  let startIndex := (page - 1) * limit
  let endIndex := startIndex + limit
  { registrars := jsSlice kenicRegistrars startIndex endIndex
    hasMore := decide (endIndex < (kenicRegistrars.length : Int))
    total := kenicRegistrars.length }

/-- JS `String.prototype.toLowerCase` restricted to ASCII (the only case the
domain validator distinguishes). -/
def jsToLower (c : Char) : Char :=
  if 'A' ≤ c ∧ c ≤ 'Z' then Char.ofNat (c.toNat + 32) else c

/-- Whitespace stripped by JS `String.prototype.trim` (ASCII portion). -/
def isJsSpace (c : Char) : Bool :=
  c = ' ' || c = '\t' || c = '\n' || c = '\r' || c = '\x0b' || c = '\x0c'

/-- JS `String.prototype.trim`: strip leading and trailing whitespace. -/
def jsTrim (s : List Char) : List Char :=
  ((s.dropWhile isJsSpace).reverse.dropWhile isJsSpace).reverse

/-- `[a-z0-9]` character class. -/
def isLowerAlnum (c : Char) : Bool :=
  ('a' ≤ c && c ≤ 'z') || ('0' ≤ c && c ≤ '9')

/-- `[a-z0-9-]` character class. -/
def isLabelChar (c : Char) : Bool :=
  isLowerAlnum c || c = '-'

/-- The optional group `([a-z0-9-]*[a-z0-9])?` of the domain regex: empty, or
any label characters followed by one final `[a-z0-9]`. -/
def tailMatch (rest : List Char) : Bool :=
  rest.isEmpty || (rest.dropLast.all isLabelChar && isLowerAlnum (rest.getLastD 'x'))

/-- The regex `^[a-z0-9]([a-z0-9-]*[a-z0-9])?$` (part_006 line 116). -/
def domainRegexTest : List Char → Bool
  | [] => false
  | c :: rest => isLowerAlnum c && tailMatch rest

/-- Return shape of `validateDomainName`. -/
structure ValidationResult where
  isValid : Bool
  error : Option String := none
deriving DecidableEq, Repr

/-- `DomainsService.validateDomainName(domain)` (part_006 lines 91-135):
lower-cases and trims, then checks empty, length bounds, the regex, and a
(leading/trailing-hyphen) fallback, in source order. -/
def validateDomainName (domain : List Char) : ValidationResult :=
  let cleanDomain := jsTrim (domain.map jsToLower)
  if cleanDomain.isEmpty then
    { isValid := false, error := some "Domain name cannot be empty" }
  else if cleanDomain.length < 1 then
    { isValid := false, error := some "Domain name is too short" }
  else if cleanDomain.length > 63 then
    { isValid := false, error := some "Domain name is too long" }
  else if !domainRegexTest cleanDomain then
    { isValid := false, error := some "Domain name contains invalid characters" }
  else if cleanDomain.headD 'x' = '-' || cleanDomain.getLastD 'x' = '-' then
    { isValid := false, error := some "Domain name cannot start or end with a hyphen" }
  else
    { isValid := true }

/-- The validity condition exactly as the claim words it: the lower-cased
input (no trimming) matches `^[a-z0-9]([a-z0-9-]*[a-z0-9])?$` and has length
between 1 and 63.  Used only to compare against the implementation. -/
def claimValidityCheck (domain : List Char) : Bool :=
  let lowered := domain.map jsToLower
  domainRegexTest lowered && decide (1 ≤ lowered.length) && decide (lowered.length ≤ 63)

end DomainsService

namespace LessonsService

/-- A row of the `user_lesson_progress` table, as written by `updateProgress`. -/
structure ProgressRow where
  user_id : String
  lesson_id : String
  progress : ℚ
  completed : Bool
  completed_at : Option String := none
deriving DecidableEq, Repr

/-- The compound-key filter `.eq('user_id', userId).eq('lesson_id', lessonId)`. -/
def progressKey (userId lessonId : String) (r : ProgressRow) : Bool :=
  r.user_id == userId && r.lesson_id == lessonId

/-- In-memory model of the `user_lesson_progress` table. -/
abbrev ProgressDB := List ProgressRow

def findProgress (db : ProgressDB) (userId lessonId : String) : Option ProgressRow :=
  db.find? (progressKey userId lessonId)

/-- `LessonsService.getUserProgress` (part_006 lines 326-352): single-row select
by compound key; a missing row (PGRST116) is a valid empty result, `data` null. -/
def getUserProgress (db : ProgressDB) (userId lessonId : String) : ApiResponse ProgressRow :=
  { success := true, data := findProgress db userId lessonId }

/-- The `progressData` record built by `updateProgress` (part_006 lines 387-393):
the stored percentage is clamped with `Math.min(Math.max(progress, 0), 100)`;
`completed` and `completed_at` test the raw input against 100. -/
def progressData (userId lessonId : String) (progress : ℚ) (now : String) : ProgressRow :=
  { user_id := userId
    lesson_id := lessonId
    progress := min (max progress 0) 100
    completed := decide (progress ≥ 100)
    completed_at := if progress ≥ 100 then some now else none }

/-- `LessonsService.updateProgress` (part_006 lines 382-435): read the existing
row, build `progressData`, then update (if a row exists) or insert.  The remote
write is modelled as succeeding and echoing the written row; `now` stands for
`new Date().toISOString()`. -/
def updateProgress (db : ProgressDB) (userId lessonId : String) (progress : ℚ) (now : String) :
    ApiResponse ProgressRow × ProgressDB :=
  let existingProgress := getUserProgress db userId lessonId
  let pd := progressData userId lessonId progress now
  match existingProgress.data with
  | some _ =>
      ({ success := true, data := some pd },
       db.map (fun r => if progressKey userId lessonId r then pd else r))
  | none =>
      ({ success := true, data := some pd }, db ++ [pd])

/-- A row of the `lessons` table (fields the modelled operations read). -/
structure Lesson where
  id : String
  title : String
  xp_reward : Nat
deriving DecidableEq, Repr

/-- `LessonsService.getLesson` (part_006 lines 298-323): `.single()` select by
id; a missing row surfaces as a backend error (message opaque here). -/
def getLesson (lessons : List Lesson) (lessonId : String) : ApiResponse Lesson :=
  match lessons.find? (fun l => l.id == lessonId) with
  | some l => { success := true, data := some l }
  | none => { success := false, error := some "Row not found" }

/-- `LessonsService.completeLesson` (part_006 lines 438-466): look the lesson
up, fail with "Lesson not found" when absent (no write), else delegate to
`updateProgress` at 100; the `updateProgress` result is returned either way. -/
def completeLesson (lessons : List Lesson) (db : ProgressDB) (userId lessonId now : String) :
    ApiResponse ProgressRow × ProgressDB :=
  let lessonResult := getLesson lessons lessonId
  if !lessonResult.success || lessonResult.data.isNone then
    ({ success := false, error := some "Lesson not found" }, db)
  else
    updateProgress db userId lessonId 100 now

/-- `LessonsService.getAllUserProgress` (part_006 lines 355-379): select all
rows of the user. -/
def getAllUserProgress (db : ProgressDB) (userId : String) : ApiResponse (List ProgressRow) :=
  { success := true, data := some (db.filter (fun r => r.user_id == userId)) }

/-- Derived statistics record (src types `UserStats`). -/
structure UserStats where
  totalXP : Nat
  level : Nat
  completedLessons : Nat
  streakDays : Nat
  badgesEarned : Nat
deriving DecidableEq, Repr

/-- `LessonsService.getUserStats` (part_006 lines 469-509): count completed
rows, `totalXP = 50 * count`, `level = floor(totalXP/200) + 1`, `streakDays`
stubbed to 0, `badgesEarned = floor(count/5)`. -/
def getUserStats (db : ProgressDB) (userId : String) : ApiResponse UserStats :=
  let progressResult := getAllUserProgress db userId
  let allProgress := progressResult.data.getD []
  let completedLessons := (allProgress.filter (fun p => p.completed)).length
  let totalXP := completedLessons * 50
  let level := totalXP / 200 + 1
  { success := true
    data := some { totalXP := totalXP, level := level,
                   completedLessons := completedLessons, streakDays := 0,
                   badgesEarned := completedLessons / 5 } }

end LessonsService

namespace DomainsService

/-- Result of one domain availability search (src types `DomainSearchResult`). -/
structure DomainSearchResult where
  domain : String
  extension : String
  available : Bool
  registrars : Option (List KenicRegistrar) := none
deriving DecidableEq, Repr

/-- Outcome of one `searchDomain` call as observed by `checkMultipleDomains`:
`searchDomain` never throws (it catches internally) and resolves to either
`{success: true, data}` or `{success: false, error}`. -/
inductive LookupOutcome
  | ok (result : DomainSearchResult)
  | err (msg : String)
deriving DecidableEq, Repr

/-- The batching loop `for (let i = 0; i < domains.length; i += batchSize)`
with `batchSize = 5` and `batch = domains.slice(i, i + batchSize)`
(part_006 lines 173-175). -/
def batches5 : List String → List (List String)
  | [] => []
  | d :: rest => ((d :: rest).take 5) :: batches5 (rest.drop 4)
termination_by l => l.length
decreasing_by simp [List.length_drop]; omega

/-- One batch of `checkMultipleDomains` (part_006 lines 176-193): one lookup
per label; a non-success outcome is replaced in place by the synthesized
`{domain: batch[index], extension, available: false}`. -/
def processBatch (lookup : String → LookupOutcome) (extension : String)
    (batch : List String) : List DomainSearchResult :=
  batch.map (fun domain =>
    match lookup domain with
    | .ok r => r
    | .err _ => { domain := domain, extension := extension, available := false })

/-- `DomainsService.checkMultipleDomains` (part_006 lines 165-206), with the
per-label `searchDomain` outcome supplied by `lookup`: batches are processed in
order and their results concatenated; nothing in the loop throws, so the
`catch` branch is dead and the overall response is a success. -/
def checkMultipleDomains (lookup : String → LookupOutcome) (domains : List String)
    (extension : String) : ApiResponse (List DomainSearchResult) :=
  { success := true
    data := some ((batches5 domains).map (processBatch lookup extension)).flatten }

end DomainsService

/-! ### Boundary layer: backend outcomes with thrown exceptions

Each `try`-wrapped operation is modelled as a function of the outcomes of its
awaited backend calls.  An outcome either resolves to a value or throws. -/

/-- A thrown JS value as observed by a `catch` block. -/
inductive Thrown
  | errObj (msg : String)
  | other
deriving DecidableEq, Repr

/-- `error instanceof Error ? error.message : fallback`. -/
def catchMsg : Thrown → String → String
  | .errObj m, _ => m
  | .other, fallback => fallback

/-- An awaited backend call: resolves to a value or throws. -/
abbrev Call (α : Type) := Except Thrown α

/-- A Supabase error object (`.code`, `.message`). -/
structure DbError where
  code : String
  message : String
deriving DecidableEq, Repr

/-- Supabase response shape `{data, error}`. -/
structure DbResult (α : Type) where
  data : Option α := none
  error : Option DbError := none
deriving DecidableEq, Repr

/-- A profile row (src types `Profile`). -/
structure Profile where
  id : String
  email : String
  first_name : String
  last_name : String
  role : String
  organization : String
deriving DecidableEq, Repr

/-- The user object returned by the auth provider. -/
structure SupaUser where
  id : String
  email : Option String
deriving DecidableEq, Repr

/-- The application-level user (src types `AuthUser`). -/
structure AuthUser where
  id : String
  email : String
  profile : Option Profile
deriving DecidableEq, Repr

/-- `{data: {user}, error}` returned by the auth provider's sign-in/sign-up. -/
structure AuthCallResult where
  user : Option SupaUser
  error : Option DbError
deriving DecidableEq, Repr

namespace AuthService

/-- `AuthService.getProfile` (auth.ts lines 169-194). -/
def getProfile (sel : Call (DbResult Profile)) : ApiResponse Profile :=
  match sel with
  | .error t => { success := false, error := some (catchMsg t "Failed to fetch profile") }
  | .ok res =>
    match res.error with
    | some e => { success := false, error := some e.message }
    | none => { success := true, data := res.data }

/-- `AuthService.createProfile` (auth.ts lines 197-222). -/
def createProfile (ins : Call (DbResult Profile)) : ApiResponse Profile :=
  match ins with
  | .error t => { success := false, error := some (catchMsg t "Failed to create profile") }
  | .ok res =>
    match res.error with
    | some e => { success := false, error := some e.message }
    | none => { success := true, data := res.data }

/-- `AuthService.updateProfile` (auth.ts lines 225-251). -/
def updateProfile (upd : Call (DbResult Profile)) : ApiResponse Profile :=
  match upd with
  | .error t => { success := false, error := some (catchMsg t "Failed to update profile") }
  | .ok res =>
    match res.error with
    | some e => { success := false, error := some e.message }
    | none => { success := true, data := res.data }

/-- `AuthService.signIn` (auth.ts lines 7-47): password sign-in, then an inner
`getProfile` (which catches internally and never throws). -/
def signIn (auth : Call AuthCallResult) (profileSel : Call (DbResult Profile)) :
    ApiResponse AuthUser :=
  match auth with
  | .error t => { success := false, error := some (catchMsg t "Authentication failed") }
  | .ok r =>
    match r.error with
    | some e => { success := false, error := some e.message }
    | none =>
      match r.user with
      | none => { success := false, error := some "Authentication failed" }
      | some u =>
        let profile := getProfile profileSel
        { success := true
          data := some { id := u.id, email := u.email.getD "", profile := profile.data } }

/-- `AuthService.signUp` (auth.ts lines 50-105): auth sign-up, then an inner
`createProfile`. -/
def signUp (auth : Call AuthCallResult) (profileIns : Call (DbResult Profile)) :
    ApiResponse AuthUser :=
  match auth with
  | .error t => { success := false, error := some (catchMsg t "Registration failed") }
  | .ok r =>
    match r.error with
    | some e => { success := false, error := some e.message }
    | none =>
      match r.user with
      | none => { success := false, error := some "Registration failed" }
      | some u =>
        let profileResult := createProfile profileIns
        { success := true
          data := some { id := u.id, email := u.email.getD "", profile := profileResult.data } }

/-- `AuthService.signOut` (auth.ts lines 108-132): provider sign-out, then a
storage clear (either may throw). -/
def signOut (auth : Call (Option DbError)) (storageClear : Call Unit) : ApiResponse Unit :=
  match auth with
  | .error t => { success := false, error := some (catchMsg t "Sign out failed") }
  | .ok err =>
    match err with
    | some e => { success := false, error := some e.message }
    | none =>
      match storageClear with
      | .error t => { success := false, error := some (catchMsg t "Sign out failed") }
      | .ok _ => { success := true }

/-- `AuthService.getCurrentUser` (auth.ts lines 135-166): a null user is a
successful empty result. -/
def getCurrentUser (auth : Call (Option SupaUser)) (profileSel : Call (DbResult Profile)) :
    ApiResponse AuthUser :=
  match auth with
  | .error t => { success := false, error := some (catchMsg t "Failed to get current user") }
  | .ok userOpt =>
    match userOpt with
    | none => { success := true }
    | some u =>
      let profile := getProfile profileSel
      { success := true
        data := some { id := u.id, email := u.email.getD "", profile := profile.data } }

end AuthService

namespace LessonsService

namespace Boundary

/-- `LessonsService.fetchLessons` (part_006 lines 229-295): join query first,
fall back to the join-less query when it reports an error; either call may
throw.  A successful final result carries `data || []`. -/
def fetchLessons (joinQuery simpleQuery : Call (DbResult (List Lesson))) :
    ApiResponse (List Lesson) :=
  match joinQuery with
  | .error t => { success := false, error := some (catchMsg t "Failed to fetch lessons") }
  | .ok r1 =>
    match r1.error with
    | none => { success := true, data := some (r1.data.getD []) }
    | some _ =>
      match simpleQuery with
      | .error t => { success := false, error := some (catchMsg t "Failed to fetch lessons") }
      | .ok r2 =>
        match r2.error with
        | some e => { success := false, error := some e.message }
        | none => { success := true, data := some (r2.data.getD []) }

/-- `LessonsService.getLesson` (part_006 lines 298-323), boundary view. -/
def getLesson (sel : Call (DbResult Lesson)) : ApiResponse Lesson :=
  match sel with
  | .error t => { success := false, error := some (catchMsg t "Failed to fetch lesson") }
  | .ok r =>
    match r.error with
    | some e => { success := false, error := some e.message }
    | none => { success := true, data := r.data }

/-- `LessonsService.getUserProgress` (part_006 lines 326-352), boundary view:
a PGRST116 ("not found") error is a successful null result. -/
def getUserProgress (sel : Call (DbResult ProgressRow)) : ApiResponse ProgressRow :=
  match sel with
  | .error t => { success := false, error := some (catchMsg t "Failed to fetch user progress") }
  | .ok r =>
    match r.error with
    | some e =>
      if e.code ≠ "PGRST116" then { success := false, error := some e.message }
      else { success := true, data := r.data }
    | none => { success := true, data := r.data }

/-- `LessonsService.getAllUserProgress` (part_006 lines 355-379), boundary view. -/
def getAllUserProgress (sel : Call (DbResult (List ProgressRow))) :
    ApiResponse (List ProgressRow) :=
  match sel with
  | .error t => { success := false, error := some (catchMsg t "Failed to fetch user progress") }
  | .ok r =>
    match r.error with
    | some e => { success := false, error := some e.message }
    | none => { success := true, data := r.data }

/-- `LessonsService.updateProgress` (part_006 lines 382-435), boundary view:
the inner `getUserProgress` never throws; its `data` only selects between the
update and the insert write, whose outcome shapes agree (`writeRes`). -/
def updateProgress (existingSel : Call (DbResult ProgressRow))
    (writeRes : Call (DbResult ProgressRow)) : ApiResponse ProgressRow :=
  let _existing := getUserProgress existingSel
  match writeRes with
  | .error t => { success := false, error := some (catchMsg t "Failed to update progress") }
  | .ok r =>
    match r.error with
    | some e => { success := false, error := some e.message }
    | none => { success := true, data := r.data }

/-- `LessonsService.completeLesson` (part_006 lines 438-466), boundary view. -/
def completeLesson (lessonSel : Call (DbResult Lesson))
    (existingSel writeRes : Call (DbResult ProgressRow)) : ApiResponse ProgressRow :=
  let lessonResult := getLesson lessonSel
  if !lessonResult.success || lessonResult.data.isNone then
    { success := false, error := some "Lesson not found" }
  else
    updateProgress existingSel writeRes

/-- `LessonsService.getUserStats` (part_006 lines 469-509), boundary view. -/
def getUserStats (sel : Call (DbResult (List ProgressRow))) : ApiResponse UserStats :=
  let progressResult := getAllUserProgress sel
  if !progressResult.success then
    { success := false, error := some (progressResult.error.getD "Failed to fetch user stats") }
  else
    let allProgress := progressResult.data.getD []
    let completedLessons := (allProgress.filter (fun p => p.completed)).length
    let totalXP := completedLessons * 50
    { success := true
      data := some { totalXP := totalXP, level := totalXP / 200 + 1,
                     completedLessons := completedLessons, streakDays := 0,
                     badgesEarned := completedLessons / 5 } }

/-- First-occurrence deduplication, as `[...new Set(xs)]` in JS. -/
def jsSetDedup (xs : List String) : List String :=
  xs.foldl (fun acc x => if x ∈ acc then acc else acc ++ [x]) []

/-- `LessonsService.getCategories` (part_006 lines 512-539); a successful
select always carries `data`. -/
def getCategories (sel : Call (DbResult (List String))) : ApiResponse (List String) :=
  match sel with
  | .error t => { success := false, error := some (catchMsg t "Failed to fetch categories") }
  | .ok r =>
    match r.error with
    | some e => { success := false, error := some e.message }
    | none => { success := true, data := some (jsSetDedup (r.data.getD [])) }

/-- `LessonsService.getDifficultyLevels` (part_006 lines 542-569). -/
def getDifficultyLevels (sel : Call (DbResult (List String))) : ApiResponse (List String) :=
  match sel with
  | .error t => { success := false, error := some (catchMsg t "Failed to fetch difficulty levels") }
  | .ok r =>
    match r.error with
    | some e => { success := false, error := some e.message }
    | none => { success := true, data := some (jsSetDedup (r.data.getD [])) }

end Boundary

end LessonsService

namespace DomainsService

/-- `DomainsService.getRegistrars` (part_006 lines 58-60). -/
def getRegistrars : List KenicRegistrar := kenicRegistrars

/-- The `fetch` response fields `searchDomain` reads. -/
structure HttpResponse where
  ok : Bool
  status : Nat
deriving DecidableEq, Repr

/-- Parsed JSON body of the WHOIS lookup (src types `DomainLookupResponse`). -/
structure DomainLookupResponse where
  available : Bool
deriving DecidableEq, Repr

/-- `domain.toLowerCase().trim()` on a Lean `String`. -/
def jsCleanString (s : String) : String :=
  String.mk (jsTrim (s.data.map jsToLower))

/-- `DomainsService.searchDomain` (part_006 lines 14-55): POST the cleaned
label, fail on a non-2xx status, parse the JSON body (`jsonBody`; parsing may
throw), attach the registrar directory when available. -/
def searchDomain (domain extension : String) (fetchCall : Call HttpResponse)
    (jsonBody : Call DomainLookupResponse) : ApiResponse DomainSearchResult :=
  match fetchCall with
  | .error t => { success := false, error := some (catchMsg t "Domain lookup failed") }
  | .ok resp =>
    if !resp.ok then
      { success := false, error := some ("HTTP error: " ++ toString resp.status) }
    else
      match jsonBody with
      | .error t => { success := false, error := some (catchMsg t "Domain lookup failed") }
      | .ok body =>
        { success := true
          data := some { domain := jsCleanString domain, extension := extension,
                         available := body.available,
                         registrars := if body.available then some getRegistrars else none } }

end DomainsService

/-- The well-formedness of one uniform result: a success carries no error, a
failure carries a human-readable message. -/
abbrev resultShapeOk (r : ApiResponse α) : Prop :=
  (r.success = true → r.error = none) ∧ (r.success = false → ∃ m, r.error = some m)

/-! ### Supporting lemmas -/

theorem kenicRegistrars_length : kenicRegistrars.length = 20 := rfl

theorem progressKey_progressData (u l : String) (p : ℚ) (now : String) :
    LessonsService.progressKey u l (LessonsService.progressData u l p now) = true := by
  simp [LessonsService.progressKey, LessonsService.progressData]

theorem findProgress_map_set (db : LessonsService.ProgressDB) (u l : String)
    (pd : LessonsService.ProgressRow) (hpd : LessonsService.progressKey u l pd = true)
    (x : LessonsService.ProgressRow)
    (hx : LessonsService.findProgress db u l = some x) :
    LessonsService.findProgress
      (db.map (fun r => if LessonsService.progressKey u l r then pd else r)) u l = some pd := by
  induction db with
  | nil => simp [LessonsService.findProgress] at hx
  | cons a rest ih =>
    unfold LessonsService.findProgress at hx ⊢
    by_cases h : LessonsService.progressKey u l a = true
    · simp [List.find?_cons_of_pos, h, hpd]
    · have h' : LessonsService.progressKey u l a = false := by
        rwa [Bool.not_eq_true] at h
      rw [List.find?_cons_of_neg _ h] at hx
      simp only [List.map_cons, h', Bool.false_eq_true, if_false,
        List.find?_cons_of_neg _ h]
      exact ih hx

theorem findProgress_append_new (db : LessonsService.ProgressDB) (u l : String)
    (pd : LessonsService.ProgressRow) (hpd : LessonsService.progressKey u l pd = true)
    (hx : LessonsService.findProgress db u l = none) :
    LessonsService.findProgress (db ++ [pd]) u l = some pd := by
  unfold LessonsService.findProgress at hx ⊢
  simp [List.find?_append, hx, List.find?_cons_of_pos, hpd]

theorem progressData_clamp_props (u l : String) (p : ℚ) (now : String) :
    (LessonsService.progressData u l p now).progress = min (max p 0) 100 ∧
    0 ≤ (LessonsService.progressData u l p now).progress ∧
    (LessonsService.progressData u l p now).progress ≤ 100 ∧
    ((LessonsService.progressData u l p now).completed = true ↔
      100 ≤ min (max p 0) 100) ∧
    ((LessonsService.progressData u l p now).completed_at ≠ none ↔
      (LessonsService.progressData u l p now).completed = true) := by
  refine ⟨rfl, ?_, ?_, ?_, ?_⟩
  · exact le_min (le_max_right p 0) (by norm_num)
  · exact min_le_right _ _
  · unfold LessonsService.progressData
    simp only [decide_eq_true_eq]
    constructor
    · intro h
      exact le_min (le_trans h (le_max_left p 0)) le_rfl
    · intro h
      have h1 : (100 : ℚ) ≤ max p 0 := le_trans h (min_le_left _ _)
      rcases le_max_iff.mp h1 with h2 | h2
      · exact h2
      · norm_num at h2
  · unfold LessonsService.progressData
    by_cases h : (100 : ℚ) ≤ p
    · simp [h, ge_iff_le]
    · simp [h, ge_iff_le]

/-! ### C1 -/

/-- C1: for every user, lesson and percentage `p`, `updateProgress` stores a
progress value equal to `min(max(p,0),100)`, which lies in [0,100]; the stored
`completed` flag is true iff the clamped value is ≥ 100; and the stored
completion timestamp is non-null exactly when `completed` is true.  The stored
record is both returned (`success = true`) and retrievable afterwards; at
`p = 130` this gives percentage 100, `completed = true` and a non-null time. -/
theorem updateProgress_clamps (db : LessonsService.ProgressDB)
    (u l : String) (p : ℚ) (now : String) :
    ∃ r : LessonsService.ProgressRow,
      (LessonsService.updateProgress db u l p now).1 =
        { success := true, data := some r } ∧
      LessonsService.findProgress (LessonsService.updateProgress db u l p now).2 u l =
        some r ∧
      r.progress = min (max p 0) 100 ∧ 0 ≤ r.progress ∧ r.progress ≤ 100 ∧
      (r.completed = true ↔ 100 ≤ min (max p 0) 100) ∧
      (r.completed_at ≠ none ↔ r.completed = true) := by
  refine ⟨LessonsService.progressData u l p now, ?_, ?_,
    progressData_clamp_props u l p now⟩
  · unfold LessonsService.updateProgress LessonsService.getUserProgress
    rcases h : LessonsService.findProgress db u l with _ | x <;> simp [h]
  · unfold LessonsService.updateProgress LessonsService.getUserProgress
    rcases h : LessonsService.findProgress db u l with _ | x
    · simp only [h]
      exact findProgress_append_new db u l _ (progressKey_progressData u l p now) h
    · simp only [h]
      exact findProgress_map_set db u l _ (progressKey_progressData u l p now) x h

/-! ### C2 -/

/-- C2: for a user whose progress rows contain exactly `c` completed rows,
`getUserStats` returns `totalXP = 50c`, `level = floor(50c/200)+1 = floor(c/4)+1`,
`completedLessons = c`, `streakDays = 0` and `badgesEarned = floor(c/5)`. -/
theorem getUserStats_formulas (db : LessonsService.ProgressDB) (u : String) (c : Nat)
    (hc : ((db.filter (fun r => r.user_id == u)).filter (fun p => p.completed)).length = c) :
    LessonsService.getUserStats db u =
      { success := true
        data := some { totalXP := 50 * c, level := c / 4 + 1, completedLessons := c,
                       streakDays := 0, badgesEarned := c / 5 } } ∧
    50 * c / 200 + 1 = c / 4 + 1 := by
  subst hc
  constructor
  · unfold LessonsService.getUserStats LessonsService.getAllUserProgress
    simp only [Option.getD_some, ApiResponse.mk.injEq, Option.some.injEq,
      LessonsService.UserStats.mk.injEq, true_and, and_true]
    omega
  · omega

/-- Witness for C2 at the spec's scenario: a user with no progress rows gets
`{totalXP: 0, level: 1, completedLessons: 0, badgesEarned: 0}`. -/
theorem getUserStats_formulas_witness :
    LessonsService.getUserStats [] "u" =
      { success := true
        data := some { totalXP := 0, level := 1, completedLessons := 0,
                       streakDays := 0, badgesEarned := 0 } } :=
  (getUserStats_formulas [] "u" 0 rfl).1

/-! ### C6 -/

/-- C6: `completeLesson` first looks the lesson up; when absent it returns the
failure "Lesson not found" and leaves the progress store unchanged; when
present it delegates to `updateProgress` with percentage exactly 100. -/
theorem completeLesson_lookup (lessons : List LessonsService.Lesson)
    (db : LessonsService.ProgressDB) (u l now : String) :
    (lessons.find? (fun x => x.id == l) = none →
      LessonsService.completeLesson lessons db u l now =
        ({ success := false, error := some "Lesson not found" }, db)) ∧
    (∀ x, lessons.find? (fun q => q.id == l) = some x →
      LessonsService.completeLesson lessons db u l now =
        LessonsService.updateProgress db u l 100 now) := by
  constructor
  · intro h
    unfold LessonsService.completeLesson LessonsService.getLesson
    simp [h]
  · intro x h
    unfold LessonsService.completeLesson LessonsService.getLesson
    simp [h]

/-- Witness for C6: completing a lesson against an empty lessons table fails
with "Lesson not found" and writes nothing. -/
theorem completeLesson_lookup_witness :
    LessonsService.completeLesson [] [] "u" "l" "t" =
      ({ success := false, error := some "Lesson not found" }, []) :=
  (completeLesson_lookup [] [] "u" "l" "t").1 rfl

/-! ### Validation lemmas -/

theorem domainRegexTest_ne_nil {l : List Char}
    (h : DomainsService.domainRegexTest l = true) : l ≠ [] := by
  intro he
  subst he
  exact absurd h (by decide)

theorem isLowerAlnum_ne_hyphen {c : Char}
    (h : DomainsService.isLowerAlnum c = true) : ¬ (c = '-') := by
  intro he
  subst he
  exact absurd h (by decide)

theorem domainRegexTest_head {l : List Char}
    (h : DomainsService.domainRegexTest l = true) :
    DomainsService.isLowerAlnum (l.headD 'x') = true := by
  cases l with
  | nil => exact absurd h (by decide)
  | cons c rest =>
    simp only [DomainsService.domainRegexTest, Bool.and_eq_true] at h
    simpa using h.1

theorem domainRegexTest_last {l : List Char}
    (h : DomainsService.domainRegexTest l = true) :
    DomainsService.isLowerAlnum (l.getLastD 'x') = true := by
  cases l with
  | nil => exact absurd h (by decide)
  | cons c rest =>
    simp only [DomainsService.domainRegexTest, Bool.and_eq_true] at h
    obtain ⟨h1, h2⟩ := h
    rw [List.getLastD_cons]
    cases rest with
    | nil => simpa using h1
    | cons d rest2 =>
      simp only [DomainsService.tailMatch, List.isEmpty_cons, Bool.false_or,
        Bool.and_eq_true] at h2
      rw [List.getLastD_cons]
      rw [List.getLastD_cons] at h2
      exact h2.2

/-! ### C3 -/

/-- C3 counterexample: on the input "abc " (trailing space) the implementation
returns `isValid = true`, while the claim's condition — the lower-cased (but
untrimmed) input matches the regex with length 1-63 — is false, because the
code also trims the input before validating. -/
theorem validateDomainName_claim_counterexample :
    (DomainsService.validateDomainName ['a', 'b', 'c', ' ']).isValid = true ∧
    DomainsService.claimValidityCheck ['a', 'b', 'c', ' '] = false := by
  constructor <;> rfl

/-- C3 amended: `validateDomainName` lower-cases AND trims the input;
`isValid = true` exactly when the trimmed lower-cased input matches
`^[a-z0-9]([a-z0-9-]*[a-z0-9])?$` and has length between 1 and 63. -/
theorem validateDomainName_valid_iff (domain : List Char) :
    (DomainsService.validateDomainName domain).isValid = true ↔
      (DomainsService.domainRegexTest
          (DomainsService.jsTrim (domain.map DomainsService.jsToLower)) = true ∧
        1 ≤ (DomainsService.jsTrim (domain.map DomainsService.jsToLower)).length ∧
        (DomainsService.jsTrim (domain.map DomainsService.jsToLower)).length ≤ 63) := by
  unfold DomainsService.validateDomainName
  set clean := DomainsService.jsTrim (domain.map DomainsService.jsToLower) with hclean
  dsimp only
  split_ifs with h1 h2 h3 h4 h5
  · rw [List.isEmpty_iff] at h1
    simp [h1, DomainsService.domainRegexTest]
  · simp only [Bool.false_eq_true, false_iff]
    rintro ⟨-, hlen, -⟩
    omega
  · simp only [Bool.false_eq_true, false_iff]
    rintro ⟨-, -, hlen⟩
    omega
  · simp only [Bool.not_eq_eq_eq_not, Bool.not_true] at h4
    simp [h4]
  · exfalso
    have h4' : DomainsService.domainRegexTest clean = true := by simpa using h4
    rcases Bool.or_eq_true_iff.mp h5 with hh | hh
    · exact isLowerAlnum_ne_hyphen (domainRegexTest_head h4') (by simpa using hh)
    · exact isLowerAlnum_ne_hyphen (domainRegexTest_last h4') (by simpa using hh)
  · have h4' : DomainsService.domainRegexTest clean = true := by simpa using h4
    have hne := domainRegexTest_ne_nil h4'
    have hpos : 0 < clean.length := List.length_pos.mpr hne
    simp only [true_iff]
    exact ⟨h4', hpos, by omega⟩

/-! ### C9 -/

/-- C9: the explicit leading/trailing-hyphen branch of `validateDomainName` is
unreachable — its error message is never returned, because the regex check
before it already rejects every cleaned input starting or ending with a
hyphen. -/
theorem validateDomainName_hyphen_branch_unreachable (domain : List Char) :
    (DomainsService.validateDomainName domain).error ≠
      some "Domain name cannot start or end with a hyphen" := by
  unfold DomainsService.validateDomainName
  set clean := DomainsService.jsTrim (domain.map DomainsService.jsToLower) with hclean
  dsimp only
  split_ifs with h1 h2 h3 h4 h5
  · decide
  · decide
  · decide
  · decide
  · exfalso
    have h4' : DomainsService.domainRegexTest clean = true := by simpa using h4
    rcases Bool.or_eq_true_iff.mp h5 with hh | hh
    · exact isLowerAlnum_ne_hyphen (domainRegexTest_head h4') (by simpa using hh)
    · exact isLowerAlnum_ne_hyphen (domainRegexTest_last h4') (by simpa using hh)
  · decide

/-! ### Pagination lemmas -/

theorem jsSlice_coe_nat (xs : List α) (a b : Nat) :
    jsSlice xs (a : Int) (b : Int) = (xs.drop a).take (b - a) := by
  unfold jsSlice jsSliceIdx
  have ha : ¬((a : Int) < 0) := by omega
  have hb : ¬((b : Int) < 0) := by omega
  simp only [ha, hb, if_false, Int.toNat_ofNat, List.drop_take]
  rcases le_or_lt a xs.length with h1 | h1
  · have hma : min a xs.length = a := by omega
    rw [hma]
    rcases le_or_lt b xs.length with h2 | h2
    · have hmb : min b xs.length = b := by omega
      rw [hmb]
    · have hmb : min b xs.length = xs.length := by omega
      rw [hmb, List.take_of_length_le (by simp only [List.length_drop]; omega),
        List.take_of_length_le (by simp only [List.length_drop]; omega)]
  · have hma : min a xs.length = xs.length := by omega
    have hx : xs.drop a = [] := List.drop_eq_nil_of_le (by omega)
    have hx2 : xs.drop xs.length = [] := List.drop_eq_nil_of_le (by omega)
    rw [hma, hx, hx2, List.take_nil, List.take_nil]

theorem jsSlice_start_ge (xs : List α) (a b : Int) (h : (xs.length : Int) ≤ a) :
    jsSlice xs a b = [] := by
  unfold jsSlice jsSliceIdx
  have ha : ¬(a < 0) := by omega
  simp only [ha, if_false]
  have hk : min a.toNat xs.length = xs.length := by omega
  rw [hk]
  exact List.drop_eq_nil_of_le (List.length_take_le' _ _)

theorem pages_flatten_drop (l : List α) (s : Nat) (n : Nat) :
    ((List.range n).map (fun k => (l.drop (k * s)).take s)).flatten ++ l.drop (n * s) = l := by
  induction n with
  | zero => simp
  | succ m ih =>
    rw [List.range_succ, List.map_append, List.flatten_append, List.append_assoc]
    simp only [List.map_cons, List.map_nil, List.flatten_cons, List.flatten_nil,
      List.append_nil]
    rw [Nat.succ_mul, List.drop_take_append_drop]
    exact ih

theorem getRegistrarsPaginated_registrars_eq (page size : Nat) (hp : 1 ≤ page) :
    (DomainsService.getRegistrarsPaginated (page : Int) (size : Int)).registrars =
      (kenicRegistrars.drop ((page - 1) * size)).take size := by
  unfold DomainsService.getRegistrarsPaginated
  dsimp only
  have h1 : ((page : Int) - 1) * (size : Int) = (((page - 1) * size : Nat) : Int) := by
    rw [Nat.cast_mul, Nat.cast_sub hp]
    push_cast
    ring
  rw [h1, ← Nat.cast_add, jsSlice_coe_nat, Nat.add_sub_cancel_left]

theorem getRegistrarsPaginated_hasMore_iff (page size : Nat) :
    ((DomainsService.getRegistrarsPaginated (page : Int) (size : Int)).hasMore = true ↔
      page * size < kenicRegistrars.length) := by
  unfold DomainsService.getRegistrarsPaginated
  dsimp only
  rw [decide_eq_true_eq]
  have h : ((page : Int) - 1) * (size : Int) + (size : Int) = ((page * size : Nat) : Int) := by
    push_cast
    ring
  rw [h]
  exact_mod_cast Iff.rfl

/-! ### C4 -/

/-- C4 counterexample: pages 0 and -1 are outside the 1-based page range, yet
`getRegistrarsPaginated(0, 10)` reports `hasMore = true` (with an empty slice),
and `getRegistrarsPaginated(-1, 10)` even returns a non-empty slice (JS
`slice` interprets the negative start index from the end of the list). -/
theorem getRegistrarsPaginated_low_page_counterexample :
    (DomainsService.getRegistrarsPaginated 0 10).registrars = [] ∧
    (DomainsService.getRegistrarsPaginated 0 10).hasMore = true ∧
    (DomainsService.getRegistrarsPaginated (-1) 10).registrars.length = 10 ∧
    (DomainsService.getRegistrarsPaginated (-1) 10).hasMore = true := by
  refine ⟨rfl, rfl, rfl, rfl⟩

/-- C4 amended: for every page ≥ 1 past the end of the registrar list (start
index `(page-1)*pageSize` at or beyond the list's length), no bounds error
occurs: the slice is empty and `hasMore = false`.  (Pages ≤ 0 are instead
interpreted through JS negative slice indices and can report `hasMore = true`
or return data.) -/
theorem getRegistrarsPaginated_out_of_range (page limit : Int)
    (hp : 1 ≤ page) (hl : 1 ≤ limit)
    (hout : (kenicRegistrars.length : Int) ≤ (page - 1) * limit) :
    (DomainsService.getRegistrarsPaginated page limit).registrars = [] ∧
    (DomainsService.getRegistrarsPaginated page limit).hasMore = false := by
  unfold DomainsService.getRegistrarsPaginated
  dsimp only
  constructor
  · exact jsSlice_start_ge kenicRegistrars _ _ hout
  · rw [decide_eq_false_iff_not]
    generalize hX : (page - 1) * limit = X at hout ⊢
    omega

/-- Witness for C4 (amended): with 20 registrars, page 3 at page size 10 is
past the end and yields an empty slice with `hasMore = false`. -/
theorem getRegistrarsPaginated_out_of_range_witness :
    (DomainsService.getRegistrarsPaginated 3 10).registrars = [] ∧
    (DomainsService.getRegistrarsPaginated 3 10).hasMore = false :=
  getRegistrarsPaginated_out_of_range 3 10 (by decide) (by decide) (by decide)

/-! ### C5 -/

/-- C5: for every `page ≥ 1` and `pageSize ≥ 1`, `getRegistrarsPaginated`
returns the contiguous slice of the fixed registrar list starting at
`(page-1)*pageSize` of length at most `pageSize`; concatenating the slices of
pages `1..n` (for any `n` covering the list) reconstructs the list exactly
once in order; `hasMore = true` iff `page*pageSize` is strictly before the
list's end, and among the pages up to the final one `hasMore` is false exactly
on the final page; `total` is always the list's length. -/
theorem getRegistrarsPaginated_pages (page size n : Nat) (hp : 1 ≤ page) (hs : 1 ≤ size) :
    (DomainsService.getRegistrarsPaginated (page : Int) (size : Int)).registrars =
      (kenicRegistrars.drop ((page - 1) * size)).take size ∧
    (DomainsService.getRegistrarsPaginated (page : Int) (size : Int)).registrars.length ≤ size ∧
    ((DomainsService.getRegistrarsPaginated (page : Int) (size : Int)).hasMore = true ↔
      page * size < kenicRegistrars.length) ∧
    (DomainsService.getRegistrarsPaginated (page : Int) (size : Int)).total =
      kenicRegistrars.length ∧
    (kenicRegistrars.length ≤ n * size →
      ((List.range n).map (fun k : Nat =>
        (DomainsService.getRegistrarsPaginated ((k : Int) + 1) (size : Int)).registrars)).flatten =
        kenicRegistrars) ∧
    (page ≤ (kenicRegistrars.length - 1) / size + 1 →
      ((DomainsService.getRegistrarsPaginated (page : Int) (size : Int)).hasMore = false ↔
        page = (kenicRegistrars.length - 1) / size + 1)) := by
  refine ⟨getRegistrarsPaginated_registrars_eq page size hp, ?_, ?_, rfl, ?_, ?_⟩
  · rw [getRegistrarsPaginated_registrars_eq page size hp]
    simp only [List.length_take, List.length_drop]
    omega
  · exact getRegistrarsPaginated_hasMore_iff page size
  · intro hcover
    have hmap : ∀ k : Nat,
        (DomainsService.getRegistrarsPaginated ((k : Int) + 1) (size : Int)).registrars =
          (kenicRegistrars.drop (k * size)).take size := by
      intro k
      have hk : ((k : Int) + 1) = ((k + 1 : Nat) : Int) := by push_cast; ring
      rw [hk, getRegistrarsPaginated_registrars_eq (k + 1) size (by omega),
        Nat.add_sub_cancel]
    have hfun : (List.range n).map (fun k : Nat =>
        (DomainsService.getRegistrarsPaginated ((k : Int) + 1) (size : Int)).registrars) =
        (List.range n).map (fun k => (kenicRegistrars.drop (k * size)).take size) :=
      List.map_congr_left (fun k _ => hmap k)
    rw [hfun]
    have h := pages_flatten_drop kenicRegistrars size n
    rwa [List.drop_eq_nil_of_le hcover, List.append_nil] at h
  · intro hle
    have hm := getRegistrarsPaginated_hasMore_iff page size
    have hmf : (DomainsService.getRegistrarsPaginated (page : Int) (size : Int)).hasMore
        = false ↔ ¬ (page * size < kenicRegistrars.length) := by
      rw [← hm]
      exact Bool.eq_false_iff
    rw [hmf, kenicRegistrars_length]
    rw [kenicRegistrars_length] at hle
    have hdiv : 19 / size < page ↔ 19 < page * size := by
      rw [Nat.div_lt_iff_lt_mul hs, Nat.mul_comm]
    norm_num at hle ⊢
    generalize hq : 19 / size = q at hdiv hle ⊢
    generalize ht : page * size = t at hdiv ⊢
    omega

/-- Witness for C5 at page 1, page size 10, with 2 pages covering the list:
the first page is full, `hasMore` holds, and pages 1-2 concatenate to the full
registrar directory. -/
theorem getRegistrarsPaginated_pages_witness :
    (DomainsService.getRegistrarsPaginated 1 10).hasMore = true ∧
    ((List.range 2).map (fun k : Nat =>
      (DomainsService.getRegistrarsPaginated ((k : Int) + 1) 10).registrars)).flatten =
      kenicRegistrars := by
  have h := getRegistrarsPaginated_pages 1 10 2 (by decide) (by decide)
  exact ⟨(h.2.2.1).mpr (by decide), h.2.2.2.2.1 (by decide)⟩

/-! ### Batch-lookup lemmas -/

theorem batches5_flatten (l : List String) :
    (DomainsService.batches5 l).flatten = l := by
  induction l using DomainsService.batches5.induct with
  | case1 => simp [DomainsService.batches5]
  | case2 d rest ih =>
    rw [DomainsService.batches5]
    rw [List.flatten_cons, ih]
    show d :: (rest.take 4 ++ rest.drop 4) = d :: rest
    rw [List.take_append_drop]

theorem batches5_eq_nil_iff (l : List String) :
    DomainsService.batches5 l = [] ↔ l = [] := by
  cases l with
  | nil => simp [DomainsService.batches5]
  | cons d rest =>
    rw [DomainsService.batches5]
    simp

theorem batches5_length_le (l : List String) :
    ∀ b ∈ DomainsService.batches5 l, b.length ≤ 5 := by
  induction l using DomainsService.batches5.induct with
  | case1 => simp [DomainsService.batches5]
  | case2 d rest ih =>
    rw [DomainsService.batches5]
    intro b hb
    rcases List.mem_cons.mp hb with rfl | hb2
    · exact List.length_take_le _ _
    · exact ih b hb2

theorem batches5_full_except_last (l : List String) :
    ∀ b ∈ (DomainsService.batches5 l).dropLast, b.length = 5 := by
  induction l using DomainsService.batches5.induct with
  | case1 => simp [DomainsService.batches5]
  | case2 d rest ih =>
    rw [DomainsService.batches5]
    cases hb : DomainsService.batches5 (rest.drop 4) with
    | nil => simp
    | cons b2 bs =>
      rw [List.dropLast_cons_of_ne_nil (by simp)]
      intro b hbB
      have hres : rest.drop 4 ≠ [] := by
        intro hnil
        rw [hnil] at hb
        simp [DomainsService.batches5] at hb
      have hlen : 4 < rest.length := by
        by_contra hle
        exact hres (List.drop_eq_nil_of_le (by omega))
      rcases List.mem_cons.mp hbB with rfl | hb2
      · simp only [List.length_take, List.length_cons]
        omega
      · rw [← hb] at hb2
        exact ih b hb2

theorem checkMultipleDomains_data_eq (lookup : String → DomainsService.LookupOutcome)
    (domains : List String) (extension : String) :
    (DomainsService.checkMultipleDomains lookup domains extension).data =
      some (domains.map (fun domain =>
        match lookup domain with
        | .ok r => r
        | .err _ => { domain := domain, extension := extension, available := false })) := by
  unfold DomainsService.checkMultipleDomains
  dsimp only
  congr 1
  have h1 : (DomainsService.batches5 domains).map
        (DomainsService.processBatch lookup extension) =
      (DomainsService.batches5 domains).map (fun b => b.map (fun domain =>
        match lookup domain with
        | .ok r => r
        | .err _ => ({ domain := domain, extension := extension, available := false } :
            DomainsService.DomainSearchResult))) :=
    List.map_congr_left (fun b _ => rfl)
  rw [h1, ← List.map_flatten, batches5_flatten]

/-! ### C7 -/

/-- C7: `checkMultipleDomains` partitions the labels into batches of size 5
(all full except possibly the last, concatenating back to the input), issues
one `searchDomain` lookup per label, replaces a failed lookup by the
synthesized `{domain: that label, extension, available: false}` in that
label's position, and returns the batch results concatenated in input
order. -/
theorem checkMultipleDomains_batches (lookup : String → DomainsService.LookupOutcome)
    (domains : List String) (extension : String) :
    (DomainsService.checkMultipleDomains lookup domains extension).data =
      some (domains.map (fun domain =>
        match lookup domain with
        | .ok r => r
        | .err _ => { domain := domain, extension := extension, available := false })) ∧
    (DomainsService.batches5 domains).flatten = domains ∧
    (∀ b ∈ DomainsService.batches5 domains, b.length ≤ 5) ∧
    (∀ b ∈ (DomainsService.batches5 domains).dropLast, b.length = 5) ∧
    (DomainsService.checkMultipleDomains lookup domains extension).data =
      some (((DomainsService.batches5 domains).map
        (DomainsService.processBatch lookup extension)).flatten) :=
  ⟨checkMultipleDomains_data_eq lookup domains extension,
   batches5_flatten domains,
   batches5_length_le domains,
   batches5_full_except_last domains,
   rfl⟩

/-- Witness for C7 at the spec's scenario `["abc", "de-f", "-bad"]` with the
lookup failing on "-bad": all three labels resolve independently, in order,
the failing one as a synthesized unavailable result; the single batch has
length 3 ≤ 5. -/
theorem checkMultipleDomains_batches_witness :
    (DomainsService.checkMultipleDomains
        (fun d => if d = "-bad" then DomainsService.LookupOutcome.err "HTTP error: 400"
          else DomainsService.LookupOutcome.ok
            { domain := d, extension := ".ke", available := true })
        ["abc", "de-f", "-bad"] ".ke").data =
      some [{ domain := "abc", extension := ".ke", available := true },
            { domain := "de-f", extension := ".ke", available := true },
            { domain := "-bad", extension := ".ke", available := false }] ∧
    (DomainsService.batches5 ["abc", "de-f", "-bad"]).flatten =
      ["abc", "de-f", "-bad"] ∧
    (["abc", "de-f", "-bad"] : List String).length ≤ 5 := by
  have h := checkMultipleDomains_batches
    (fun d => if d = "-bad" then DomainsService.LookupOutcome.err "HTTP error: 400"
      else DomainsService.LookupOutcome.ok
        { domain := d, extension := ".ke", available := true })
    ["abc", "de-f", "-bad"] ".ke"
  refine ⟨?_, h.2.1, h.2.2.1 ["abc", "de-f", "-bad"] ?_⟩
  · rw [h.1]
    rfl
  · have hb : DomainsService.batches5 ["abc", "de-f", "-bad"] =
        [["abc", "de-f", "-bad"]] := by
      have hd : (["de-f", "-bad"] : List String).drop 4 = ([] : List String) := rfl
      rw [DomainsService.batches5, hd, DomainsService.batches5]
      rfl
    rw [hb]
    exact List.mem_singleton.mpr rfl

/-! ### C10 -/

/-- C10: with each individual `searchDomain` outcome modelled as success or
failure, `checkMultipleDomains` always returns a success result whose data
list has exactly one entry per input label. -/
theorem checkMultipleDomains_success_length
    (lookup : String → DomainsService.LookupOutcome)
    (domains : List String) (extension : String) :
    (DomainsService.checkMultipleDomains lookup domains extension).success = true ∧
    ∃ out : List DomainsService.DomainSearchResult,
      (DomainsService.checkMultipleDomains lookup domains extension).data = some out ∧
      out.length = domains.length := by
  refine ⟨rfl, domains.map (fun domain =>
    match lookup domain with
    | .ok r => r
    | .err _ => { domain := domain, extension := extension, available := false }),
    checkMultipleDomains_data_eq lookup domains extension, List.length_map _ _⟩

/-! ### Result-shape lemmas -/

theorem shapeOk_fail (m : String) (d : Option α) :
    resultShapeOk ({ success := false, data := d, error := some m } : ApiResponse α) := by
  refine ⟨fun h => ?_, fun _ => ⟨m, rfl⟩⟩
  simp at h

theorem shapeOk_success (d : Option α) :
    resultShapeOk ({ success := true, data := d } : ApiResponse α) := by
  refine ⟨fun _ => rfl, fun h => ?_⟩
  simp at h

theorem getProfile_shape (sel : Call (DbResult Profile)) :
    resultShapeOk (AuthService.getProfile sel) := by
  unfold AuthService.getProfile
  repeat' split
  all_goals first
    | exact shapeOk_fail _ _
    | exact shapeOk_success _

theorem createProfile_shape (ins : Call (DbResult Profile)) :
    resultShapeOk (AuthService.createProfile ins) := by
  unfold AuthService.createProfile
  repeat' split
  all_goals first
    | exact shapeOk_fail _ _
    | exact shapeOk_success _

theorem updateProfile_shape (upd : Call (DbResult Profile)) :
    resultShapeOk (AuthService.updateProfile upd) := by
  unfold AuthService.updateProfile
  repeat' split
  all_goals first
    | exact shapeOk_fail _ _
    | exact shapeOk_success _

theorem signIn_shape (auth : Call AuthCallResult) (profileSel : Call (DbResult Profile)) :
    resultShapeOk (AuthService.signIn auth profileSel) := by
  unfold AuthService.signIn
  repeat' split
  all_goals first
    | exact shapeOk_fail _ _
    | exact shapeOk_success _

theorem signUp_shape (auth : Call AuthCallResult) (profileIns : Call (DbResult Profile)) :
    resultShapeOk (AuthService.signUp auth profileIns) := by
  unfold AuthService.signUp
  repeat' split
  all_goals first
    | exact shapeOk_fail _ _
    | exact shapeOk_success _

theorem signOut_shape (auth : Call (Option DbError)) (storageClear : Call Unit) :
    resultShapeOk (AuthService.signOut auth storageClear) := by
  unfold AuthService.signOut
  repeat' split
  all_goals first
    | exact shapeOk_fail _ _
    | exact shapeOk_success _

theorem getCurrentUser_shape (auth : Call (Option SupaUser))
    (profileSel : Call (DbResult Profile)) :
    resultShapeOk (AuthService.getCurrentUser auth profileSel) := by
  unfold AuthService.getCurrentUser
  repeat' split
  all_goals first
    | exact shapeOk_fail _ _
    | exact shapeOk_success _

theorem fetchLessons_shape (q1 q2 : Call (DbResult (List LessonsService.Lesson))) :
    resultShapeOk (LessonsService.Boundary.fetchLessons q1 q2) := by
  unfold LessonsService.Boundary.fetchLessons
  repeat' split
  all_goals first
    | exact shapeOk_fail _ _
    | exact shapeOk_success _

theorem getLessonB_shape (sel : Call (DbResult LessonsService.Lesson)) :
    resultShapeOk (LessonsService.Boundary.getLesson sel) := by
  unfold LessonsService.Boundary.getLesson
  repeat' split
  all_goals first
    | exact shapeOk_fail _ _
    | exact shapeOk_success _

theorem getUserProgressB_shape (sel : Call (DbResult LessonsService.ProgressRow)) :
    resultShapeOk (LessonsService.Boundary.getUserProgress sel) := by
  unfold LessonsService.Boundary.getUserProgress
  repeat' split
  all_goals first
    | exact shapeOk_fail _ _
    | exact shapeOk_success _

theorem getAllUserProgressB_shape (sel : Call (DbResult (List LessonsService.ProgressRow))) :
    resultShapeOk (LessonsService.Boundary.getAllUserProgress sel) := by
  unfold LessonsService.Boundary.getAllUserProgress
  repeat' split
  all_goals first
    | exact shapeOk_fail _ _
    | exact shapeOk_success _

theorem updateProgressB_shape (existingSel writeRes : Call (DbResult LessonsService.ProgressRow)) :
    resultShapeOk (LessonsService.Boundary.updateProgress existingSel writeRes) := by
  unfold LessonsService.Boundary.updateProgress
  repeat' split
  all_goals first
    | exact shapeOk_fail _ _
    | exact shapeOk_success _

theorem completeLessonB_shape (lessonSel : Call (DbResult LessonsService.Lesson))
    (existingSel writeRes : Call (DbResult LessonsService.ProgressRow)) :
    resultShapeOk (LessonsService.Boundary.completeLesson lessonSel existingSel writeRes) := by
  unfold LessonsService.Boundary.completeLesson
  dsimp only
  split
  · exact shapeOk_fail _ _
  · exact updateProgressB_shape existingSel writeRes

theorem getUserStatsB_shape (sel : Call (DbResult (List LessonsService.ProgressRow))) :
    resultShapeOk (LessonsService.Boundary.getUserStats sel) := by
  unfold LessonsService.Boundary.getUserStats
  dsimp only
  repeat' split
  all_goals first
    | exact shapeOk_fail _ _
    | exact shapeOk_success _

theorem getCategories_shape (sel : Call (DbResult (List String))) :
    resultShapeOk (LessonsService.Boundary.getCategories sel) := by
  unfold LessonsService.Boundary.getCategories
  repeat' split
  all_goals first
    | exact shapeOk_fail _ _
    | exact shapeOk_success _

theorem getDifficultyLevels_shape (sel : Call (DbResult (List String))) :
    resultShapeOk (LessonsService.Boundary.getDifficultyLevels sel) := by
  unfold LessonsService.Boundary.getDifficultyLevels
  repeat' split
  all_goals first
    | exact shapeOk_fail _ _
    | exact shapeOk_success _

theorem searchDomain_shape (domain extension : String) (fetchCall : Call DomainsService.HttpResponse)
    (jsonBody : Call DomainsService.DomainLookupResponse) :
    resultShapeOk (DomainsService.searchDomain domain extension fetchCall jsonBody) := by
  unfold DomainsService.searchDomain
  repeat' split
  all_goals first
    | exact shapeOk_fail _ _
    | exact shapeOk_success _

theorem checkMultipleDomains_shape (lookup : String → DomainsService.LookupOutcome)
    (domains : List String) (extension : String) :
    resultShapeOk (DomainsService.checkMultipleDomains lookup domains extension) :=
  shapeOk_success _

/-! ### C8 -/

/-- C8: every backend-calling service operation — authentication,
lesson/progress and domain operations — returns a value of the uniform result
shape for every input and every backend outcome including thrown exceptions:
the operations are total functions into `ApiResponse` (no exception escapes;
the `catch` boundary converts throws into failures), a success carries no
error, and a failure always carries a human-readable message. -/
theorem uniform_result_shape :
    (∀ a p, resultShapeOk (AuthService.signIn a p)) ∧
    (∀ a p, resultShapeOk (AuthService.signUp a p)) ∧
    (∀ a s, resultShapeOk (AuthService.signOut a s)) ∧
    (∀ a p, resultShapeOk (AuthService.getCurrentUser a p)) ∧
    (∀ s, resultShapeOk (AuthService.getProfile s)) ∧
    (∀ s, resultShapeOk (AuthService.createProfile s)) ∧
    (∀ s, resultShapeOk (AuthService.updateProfile s)) ∧
    (∀ q1 q2, resultShapeOk (LessonsService.Boundary.fetchLessons q1 q2)) ∧
    (∀ s, resultShapeOk (LessonsService.Boundary.getLesson s)) ∧
    (∀ s, resultShapeOk (LessonsService.Boundary.getUserProgress s)) ∧
    (∀ s, resultShapeOk (LessonsService.Boundary.getAllUserProgress s)) ∧
    (∀ e w, resultShapeOk (LessonsService.Boundary.updateProgress e w)) ∧
    (∀ l e w, resultShapeOk (LessonsService.Boundary.completeLesson l e w)) ∧
    (∀ s, resultShapeOk (LessonsService.Boundary.getUserStats s)) ∧
    (∀ s, resultShapeOk (LessonsService.Boundary.getCategories s)) ∧
    (∀ s, resultShapeOk (LessonsService.Boundary.getDifficultyLevels s)) ∧
    (∀ d e f j, resultShapeOk (DomainsService.searchDomain d e f j)) ∧
    (∀ f d e, resultShapeOk (DomainsService.checkMultipleDomains f d e)) :=
  ⟨signIn_shape, signUp_shape, signOut_shape, getCurrentUser_shape, getProfile_shape,
   createProfile_shape, updateProfile_shape, fetchLessons_shape, getLessonB_shape,
   getUserProgressB_shape, getAllUserProgressB_shape, updateProgressB_shape,
   completeLessonB_shape, getUserStatsB_shape, getCategories_shape,
   getDifficultyLevels_shape, searchDomain_shape, checkMultipleDomains_shape⟩

/-- Witness for C8: a `signIn` whose auth call throws a non-Error value still
returns the uniform failure shape with the fallback message. -/
theorem uniform_result_shape_witness :
    (AuthService.signIn (Except.error Thrown.other) (Except.error Thrown.other)).success
      = false ∧
    ∃ m, (AuthService.signIn (Except.error Thrown.other)
      (Except.error Thrown.other)).error = some m := by
  have h := uniform_result_shape.1 (Except.error Thrown.other) (Except.error Thrown.other)
  exact ⟨rfl, h.2 rfl⟩
